import Mathlib

/-!
Verification of the data/service layer of a media-streaming client
(identity reconciliation, catalog caching, personalization scoring,
trending ranking, playlist projections and listening-time tracking).

The definitions below are a shallow embedding of the TypeScript sources
src/hooks/useAuth.ts and src/hooks/useSupabaseData.ts.  Remote reads are
modelled as explicit inputs (Except values for fallible queries), React
state as explicit record fields, JavaScript numbers as Int or Rat, the
stable Array.prototype.sort as List.mergeSort, Math.log and Math.random
as function parameters (logf, rand) constrained by hypotheses where the
code constrains them.
-/

/-- Row of the songs collection as stored remotely (DatabaseSong in the
source).  Numeric counters are integers (JavaScript numbers); a missing
tags field is modelled as the empty list. -/
structure DatabaseSong where
  file_id : Nat
  img_id : Nat
  name : String
  artist : String
  language : String
  tags : List String
  views : Int
  likes : Int
deriving DecidableEq, Repr

/-- Image URL built by convertDatabaseSong from the img_id field. -/
def songImageUrl (imgId : Nat) : String :=
  "https://images.pexels.com/photos/" ++ toString imgId ++ "/pexels-photo-"
    ++ toString imgId ++ ".jpeg?auto=compress&cs=tinysrgb&w=300"

/-- UI song record produced by convertDatabaseSong in useSupabaseData.ts. -/
structure Song where
  file_id : Nat
  img_id : Nat
  name : String
  artist : String
  language : String
  tags : List String
  views : Int
  likes : Int
  id : String
  image : String
  isLiked : Bool
deriving DecidableEq, Repr

/-- convertDatabaseSong from useSupabaseData.ts: copies the catalog
fields, sets id to the decimal string of file_id, derives the image URL
and attaches the per-viewer liked flag. -/
def convertDatabaseSong (dbSong : DatabaseSong) (isLiked : Bool) : Song :=
  { file_id := dbSong.file_id
    img_id := dbSong.img_id
    name := dbSong.name
    artist := dbSong.artist
    language := dbSong.language
    tags := dbSong.tags
    views := dbSong.views
    likes := dbSong.likes
    id := toString dbSong.file_id
    image := songImageUrl dbSong.img_id
    isLiked := isLiked }

/-- Locally persisted identity record (LocalUserData in useAuth.ts),
stored under the key musicapp_user. -/
structure LocalUserData where
  id : String
  email : String
  username : Option String
  avatar_url : Option String
deriving DecidableEq, Repr

/-- Session user as delivered by the session provider.  Only the fields
the embedded code inspects are kept. -/
structure SessionUser where
  id : String
  email : String
  full_name : Option String
  name : Option String
  avatar_url : Option String
deriving DecidableEq, Repr

/-- getUserId from useSupabaseData.ts: prefer the session user id when it
is truthy (a nonempty string), otherwise fall back to the id parsed from
the locally persisted record; a read or parse failure is modelled as an
absent local record. -/
def getUserId (user : Option SessionUser) (localData : Option LocalUserData) :
    Option String :=
  match user with
  | some u => if u.id ≠ "" then some u.id else localData.map LocalUserData.id
  | none => localData.map LocalUserData.id

/-- effectiveUser from useAuth.ts (lines 251-263): the session user when
present, otherwise a user object rebuilt from the locally persisted
identity. -/
def effectiveUser (user : Option SessionUser) (localUserData : Option LocalUserData) :
    Option SessionUser :=
  match user with
  | some u => some u
  | none =>
    localUserData.map fun d =>
      { id := d.id
        email := d.email
        full_name := d.username
        name := d.username
        avatar_url := d.avatar_url }

/-- C1: whenever a session identity with a real (nonempty) id is present
it is authoritative: getUserId, consulted before every fetch and
mutation of the data layer, and the effective identity object returned
to consumers both yield the session id; when no session identity is
present both fall back to the locally persisted id. -/
theorem C1_session_identity_authoritative
    (sess : Option SessionUser) (localD : Option LocalUserData) :
    (∀ u : SessionUser, sess = some u → u.id ≠ "" →
      getUserId sess localD = some u.id ∧
      (effectiveUser sess localD).map SessionUser.id = some u.id) ∧
    (sess = none →
      getUserId sess localD = localD.map LocalUserData.id ∧
      (effectiveUser sess localD).map SessionUser.id = localD.map LocalUserData.id) := by
  constructor
  · rintro u rfl hu
    simp [getUserId, effectiveUser, hu]
  · rintro rfl
    cases localD <;> simp [getUserId, effectiveUser]

/-- Witness for C1 at a concrete session identity and a conflicting
local identity: the session id wins. -/
theorem C1_session_identity_authoritative_witness :
    getUserId (some ⟨"session-id", "s@x", none, none, none⟩)
        (some ⟨"local-id", "l@x", none, none⟩) = some "session-id" ∧
    (effectiveUser (some ⟨"session-id", "s@x", none, none, none⟩)
        (some ⟨"local-id", "l@x", none, none⟩)).map SessionUser.id = some "session-id" :=
  (C1_session_identity_authoritative
      (some ⟨"session-id", "s@x", none, none, none⟩)
      (some ⟨"local-id", "l@x", none, none⟩)).1
    ⟨"session-id", "s@x", none, none, none⟩ rfl (by decide)

/-- Stable descending sort by a key, the model of the JavaScript idiom
list.sort((a, b) => key(b) - key(a)): Array.prototype.sort is stable and
orders a before b exactly when key b ≤ key a. -/
def sortByDesc {α β : Type} [LinearOrder β] (key : α → β) (l : List α) : List α :=
  l.mergeSort fun a b => decide (key b ≤ key a)

theorem sortByDesc_perm {α β : Type} [LinearOrder β] (key : α → β) (l : List α) :
    (sortByDesc key l).Perm l :=
  List.mergeSort_perm l _

theorem sortByDesc_length {α β : Type} [LinearOrder β] (key : α → β) (l : List α) :
    (sortByDesc key l).length = l.length :=
  (sortByDesc_perm key l).length_eq

theorem sortByDesc_trans {α β : Type} [LinearOrder β] (key : α → β) :
    ∀ a b c : α, (decide (key b ≤ key a)) = true → (decide (key c ≤ key b)) = true →
      (decide (key c ≤ key a)) = true := by
  intro a b c hab hbc
  simp only [decide_eq_true_eq] at *
  exact le_trans hbc hab

theorem sortByDesc_total {α β : Type} [LinearOrder β] (key : α → β) :
    ∀ a b : α, ((decide (key b ≤ key a)) || (decide (key a ≤ key b))) = true := by
  intro a b
  simp only [Bool.or_eq_true, decide_eq_true_eq]
  exact le_total (key b) (key a)

theorem sortByDesc_pairwise {α β : Type} [LinearOrder β] (key : α → β) (l : List α) :
    (sortByDesc key l).Pairwise fun a b => key b ≤ key a := by
  have h := @List.sorted_mergeSort α (fun a b => decide (key b ≤ key a))
    (sortByDesc_trans key) (sortByDesc_total key) l
  exact h.imp (by simp)

/-- Stability of sortByDesc: a pair that is already weakly ordered by the
key and appears in the input in that order keeps its relative order in
the output. -/
theorem sortByDesc_stable {α β : Type} [LinearOrder β] (key : α → β) (l : List α)
    (x y : α) (hkey : key y ≤ key x) (hsub : [x, y].Sublist l) :
    [x, y].Sublist (sortByDesc key l) := by
  refine List.sublist_mergeSort (sortByDesc_trans key) (sortByDesc_total key) ?_ hsub
  simp [hkey]

/-- Elements kept by take k of a pairwise-ordered list dominate the
dropped ones. -/
theorem pairwise_take_dominates_drop {α : Type} (r : α → α → Prop) (l : List α)
    (h : l.Pairwise r) (k : Nat) :
    ∀ x ∈ l.take k, ∀ y ∈ l.drop k, r x y := by
  have hsplit : l.take k ++ l.drop k = l := List.take_append_drop k l
  have h2 : (l.take k ++ l.drop k).Pairwise r := by rwa [hsplit]
  exact (List.pairwise_append.mp h2).2.2

/-- Top elements of a descending sort dominate the rest. -/
theorem sortByDesc_take_dominates {α β : Type} [LinearOrder β] (key : α → β)
    (l : List α) (k : Nat) :
    ∀ x ∈ (sortByDesc key l).take k, ∀ y ∈ (sortByDesc key l).drop k,
      key y ≤ key x :=
  pairwise_take_dominates_drop _ _ (sortByDesc_pairwise key l) k

/-- Key used by the trending ranking in fetchSongs (line 315 of
useSupabaseData.ts): views plus likes. -/
def trendKey (s : Song) : Int := s.views + s.likes

/-- Trending view computed by fetchSongs (lines 313-316): the converted
catalog sorted by views plus likes descending, first 15 entries. -/
def trendingOf (convertedSongs : List Song) : List Song :=
  (sortByDesc trendKey convertedSongs).take 15

/-- C5: the trending view is exactly the 15 highest views-plus-likes
songs of the full catalog in descending order of that key, ties broken
by the original catalog order (the sort is stable), and its length is
min 15 catalogSize. -/
theorem C5_trending_top15 (catalog : List Song) :
    trendingOf catalog = (sortByDesc trendKey catalog).take 15 ∧
    (sortByDesc trendKey catalog).Perm catalog ∧
    (trendingOf catalog).Pairwise (fun a b => trendKey b ≤ trendKey a) ∧
    (∀ x ∈ trendingOf catalog, ∀ y ∈ (sortByDesc trendKey catalog).drop 15,
      trendKey y ≤ trendKey x) ∧
    (∀ x y : Song, trendKey y ≤ trendKey x → [x, y].Sublist catalog →
      [x, y].Sublist (sortByDesc trendKey catalog)) ∧
    (trendingOf catalog).length = min 15 catalog.length := by
  refine ⟨rfl, sortByDesc_perm _ _, ?_, ?_, ?_, ?_⟩
  · exact (sortByDesc_pairwise trendKey catalog).take
  · exact sortByDesc_take_dominates trendKey catalog 15
  · exact fun x y hkey hsub => sortByDesc_stable trendKey catalog x y hkey hsub
  · simp [trendingOf, sortByDesc_length]

/-- Concrete song used in several witnesses: an English rock song. -/
def wSongA : Song :=
  convertDatabaseSong ⟨1, 11, "A", "X", "en", ["rock"], 100, 10⟩ false

/-- Second concrete witness song, less popular than wSongA. -/
def wSongB : Song :=
  convertDatabaseSong ⟨2, 12, "B", "Y", "en", ["rock"], 5, 1⟩ false

unseal List.merge List.mergeSort in
/-- Witness for C5 on a concrete two-song catalog: the stability and
domination clauses are discharged at concrete arguments. -/
theorem C5_trending_top15_witness :
    ((trendingOf [wSongA, wSongB]).Pairwise
        (fun a b => trendKey b ≤ trendKey a)) ∧
    [wSongA, wSongB].Sublist (sortByDesc trendKey [wSongA, wSongB]) ∧
    (trendingOf [wSongA, wSongB]).length = min 15 2 := by
  obtain ⟨-, -, h3, -, h5, h6⟩ := C5_trending_top15 [wSongA, wSongB]
  exact ⟨h3, h5 wSongA wSongB (by decide) (by decide), h6⟩

/-- Row of the history collection joined with its song (as selected by
fetchSongs): song id, cumulative minutes listened and the joined song
record, which the code guards for absence. -/
structure HistoryRow where
  song_id : Nat
  minutes_listened : Rat
  songs : Option DatabaseSong
deriving DecidableEq, Repr

/-- One step of the JavaScript counting idiom m[k] = (m[k] || 0) + 1 on
an object used as a map: association list in key insertion order. -/
def bumpCount (l : List (String × Nat)) (k : String) : List (String × Nat) :=
  if l.any fun p => p.1 == k then
    l.map fun p => if p.1 == k then (p.1, p.2 + 1) else p
  else l ++ [(k, 1)]

/-- Occurrence counts of a key list, in first-occurrence order, as
Object.entries would enumerate the count object built by fetchSongs. -/
def countsOf (keys : List String) : List (String × Nat) :=
  keys.foldl bumpCount []

/-- Top 15 history rows having a joined song (fetchSongs line 251). -/
def topHistoryOf (historyData : List HistoryRow) : List HistoryRow :=
  (historyData.take 15).filter fun h => h.songs.isSome

/-- The five most common lowercased tags of the top-15 history batch
(fetchSongs lines 252-271), ties broken by first occurrence since the
sort is stable. -/
def fetchCommonTags (historyData : List HistoryRow) : List String :=
  let tagKeys := (topHistoryOf historyData).flatMap fun h =>
    (h.songs.elim [] DatabaseSong.tags).map String.toLower
  ((sortByDesc Prod.snd (countsOf tagKeys)).take 5).map Prod.fst

/-- The five most common lowercased artists of the top-15 history batch
(fetchSongs lines 262-275); an empty artist name is falsy and skipped. -/
def fetchCommonArtists (historyData : List HistoryRow) : List String :=
  let artistKeys := (topHistoryOf historyData).filterMap fun h =>
    h.songs.bind fun s => if s.artist == "" then none else some s.artist.toLower
  ((sortByDesc Prod.snd (countsOf artistKeys)).take 5).map Prod.fst

/-- Score used for the refresh-time personalized list (fetchSongs lines
294-306): ten points per lowercased tag present among the common tags,
twenty for a common artist, plus raw views plus raw likes.  It is
deterministic and has no liked bonus and no logarithmic damping. -/
def fetchScore (commonTags commonArtists : List String) (song : Song) : Int :=
  (((song.tags.map String.toLower).filter fun t => commonTags.contains t).length : Int) * 10
  + (if song.artist ≠ "" ∧ commonArtists.contains song.artist.toLower then 20 else 0)
  + song.views + song.likes

/-- Ids (as strings) of every song appearing in history (fetchSongs line
280); the exclusion uses the whole history, not only the top 15. -/
def historySongIdsOf (historyData : List HistoryRow) : List String :=
  historyData.map fun h => toString h.song_id

/-- Refresh-time personalized list computed by fetchSongs (lines
282-310): convert the catalog, drop every song already in history, then
stable-sort by fetchScore descending.  The whole list is kept, with no
cap on its length. -/
def fetchPersonalized (songsData : List DatabaseSong) (userLiked : Finset Nat)
    (historyData : List HistoryRow) : List Song :=
  let convertedSongs := songsData.map fun s =>
    convertDatabaseSong s (decide (s.file_id ∈ userLiked))
  let filteredSongs := convertedSongs.filter fun s =>
    !((historySongIdsOf historyData).contains s.id)
  sortByDesc (fetchScore (fetchCommonTags historyData) (fetchCommonArtists historyData))
    filteredSongs

/-- React state owned by useSupabaseData that fetchSongs reads or
writes: the four derived views plus the liked-id set. -/
structure DataViews where
  songs : List Song
  personalizedSongs : List Song
  trendingSongs : List Song
  likedSongs : Finset Nat
  lastPlayedSong : Option Song
deriving DecidableEq

/-- State update performed by one run of fetchSongs, as a function of
the four remote read results.  A failing songs query throws into the
catch block, which resets the three list views and leaves the rest
alone; a failing liked read keeps the previous liked state but scores
with an empty set; a failing history read degrades to an empty history;
a failing or empty user read leaves the last played song unchanged. -/
def fetchSongsUpdate (prev : DataViews)
    (songsRes : Except Unit (List DatabaseSong))
    (likedRes : Except Unit (List Nat))
    (historyRes : Except Unit (List HistoryRow))
    (userRes : Except Unit (Option Nat)) : DataViews :=
  match songsRes with
  | Except.error _ =>
    { prev with songs := [], personalizedSongs := [], trendingSongs := [] }
  | Except.ok songsData =>
    let userLikedSongs : Finset Nat := match likedRes with
      | Except.ok l => l.toFinset
      | Except.error _ => ∅
    let likedState := match likedRes with
      | Except.ok _ => userLikedSongs
      | Except.error _ => prev.likedSongs
    let historyData := match historyRes with
      | Except.ok h => h
      | Except.error _ => []
    let convertedSongs := songsData.map fun s =>
      convertDatabaseSong s (decide (s.file_id ∈ userLikedSongs))
    let personalizedSorted := fetchPersonalized songsData userLikedSongs historyData
    let trending := trendingOf convertedSongs
    let lastPlayed := match userRes with
      | Except.error _ => prev.lastPlayedSong
      | Except.ok none => prev.lastPlayedSong
      | Except.ok (some fid) =>
        match convertedSongs.find? fun s => s.file_id == fid with
        | some s => some s
        | none => prev.lastPlayedSong
    { songs := convertedSongs
      personalizedSongs := personalizedSorted
      trendingSongs := trending
      likedSongs := likedState
      lastPlayedSong := lastPlayed }

/-- Empty view state, the initial React state of useSupabaseData. -/
def emptyViews : DataViews := ⟨[], [], [], ∅, none⟩

/-- View state holding data from a previous successful refresh,
including a last played song. -/
def prevViews : DataViews := ⟨[wSongA], [wSongA], [wSongA], ∅, some wSongA⟩

/-- C8 counterexample: a refresh whose songs read fails resets the three
list views but leaves lastPlayedSong holding its previous (now stale)
value, so the four views are partially populated, contradicting the
claim that all four are reset. -/
theorem C8_counterexample :
    (fetchSongsUpdate prevViews (Except.error ()) (Except.ok []) (Except.ok [])
        (Except.ok none)).songs = [] ∧
    (fetchSongsUpdate prevViews (Except.error ()) (Except.ok []) (Except.ok [])
        (Except.ok none)).personalizedSongs = [] ∧
    (fetchSongsUpdate prevViews (Except.error ()) (Except.ok []) (Except.ok [])
        (Except.ok none)).lastPlayedSong = some wSongA ∧
    some wSongA ≠ (none : Option Song) :=
  ⟨rfl, rfl, rfl, by decide⟩

/-- C8 amended: a failing songs read resets songs, personalizedSongs and
trendingSongs to empty while lastPlayedSong and the liked set keep their
previous values; a failing history read behaves like an empty history; a
failing user read leaves lastPlayedSong unchanged; a failing liked read
keeps the previous liked state.  No read failure resets all four views. -/
theorem C8_partial_reset_on_failure (prev : DataViews) (lr : Except Unit (List Nat))
    (hr : Except Unit (List HistoryRow)) (ur : Except Unit (Option Nat)) :
    (fetchSongsUpdate prev (Except.error ()) lr hr ur).songs = [] ∧
    (fetchSongsUpdate prev (Except.error ()) lr hr ur).personalizedSongs = [] ∧
    (fetchSongsUpdate prev (Except.error ()) lr hr ur).trendingSongs = [] ∧
    (fetchSongsUpdate prev (Except.error ()) lr hr ur).lastPlayedSong
      = prev.lastPlayedSong ∧
    (fetchSongsUpdate prev (Except.error ()) lr hr ur).likedSongs = prev.likedSongs ∧
    (∀ sd, fetchSongsUpdate prev (Except.ok sd) lr (Except.error ()) ur
      = fetchSongsUpdate prev (Except.ok sd) lr (Except.ok []) ur) ∧
    (∀ sd hd, (fetchSongsUpdate prev (Except.ok sd) lr hd
        (Except.error ())).lastPlayedSong = prev.lastPlayedSong) ∧
    (∀ sd hd, (fetchSongsUpdate prev (Except.ok sd) (Except.error ()) hd
        ur).likedSongs = prev.likedSongs) := by
  refine ⟨rfl, rfl, rfl, rfl, rfl, fun sd => rfl, fun sd hd => rfl, fun sd hd => rfl⟩

/-- Witness for C8 amended at concrete arguments. -/
theorem C8_partial_reset_on_failure_witness :
    (fetchSongsUpdate prevViews (Except.error ()) (Except.ok [3]) (Except.ok [])
        (Except.ok none)).lastPlayedSong = prevViews.lastPlayedSong :=
  (C8_partial_reset_on_failure prevViews (Except.ok [3]) (Except.ok [])
    (Except.ok none)).2.2.2.1

/-- Simple catalog song used in the C2 counterexample. -/
def cxSong (n : Nat) : DatabaseSong := ⟨n, n, toString n, "ar", "en", ["t"], 0, 0⟩

/-- Sixteen-song catalog, none of which is in history. -/
def cxCatalog16 : List DatabaseSong := (List.range 16).map fun n => cxSong (n + 100)

/-- One history row with a joined song, so the history batch is
nonempty. -/
def cxHistRow : HistoryRow := ⟨7, 5, some (cxSong 7)⟩

unseal List.merge List.mergeSort in
/-- C2 counterexample: after a refresh over a sixteen-song catalog with
one history row, the personalizedFromHistory view has sixteen entries,
not the fifteen the claimed top-15 history-batch computation would
produce: the view is built by a different, deterministic, uncapped
scorer inside fetchSongs. -/
theorem C2_counterexample :
    (fetchSongsUpdate emptyViews (Except.ok cxCatalog16) (Except.ok [])
        (Except.ok [cxHistRow]) (Except.ok none)).personalizedSongs.length = 16 ∧
    ¬ ((fetchSongsUpdate emptyViews (Except.ok cxCatalog16) (Except.ok [])
        (Except.ok [cxHistRow]) (Except.ok none)).personalizedSongs.length ≤ 15) := by
  constructor
  · show (fetchPersonalized cxCatalog16 (List.toFinset []) [cxHistRow]).length = 16
    rw [fetchPersonalized, sortByDesc_length]
    decide
  · show ¬ ((fetchPersonalized cxCatalog16 (List.toFinset []) [cxHistRow]).length ≤ 15)
    rw [fetchPersonalized, sortByDesc_length]
    decide

/-- C2 amended: after a successful refresh the personalizedFromHistory
view equals fetchPersonalized: every catalog song not already in history
(the whole history, not only the top 15), stable-sorted descending by
the deterministic fetchScore, which awards 10 per lowercased tag shared
with the five most common tags of the top-15 history batch, 20 when the
artist is among the five most common batch artists, plus raw views plus
raw likes; there is no random term, no liked bonus, no language filter
and no cap at 15 entries.  Only the first 15 history rows influence the
common tags and artists. -/
theorem C2_personalized_deterministic_uncapped (prev : DataViews)
    (songsData : List DatabaseSong) (likedList : List Nat)
    (historyData : List HistoryRow) (ur : Except Unit (Option Nat)) :
    (fetchSongsUpdate prev (Except.ok songsData) (Except.ok likedList)
        (Except.ok historyData) ur).personalizedSongs
      = fetchPersonalized songsData likedList.toFinset historyData ∧
    (fetchPersonalized songsData likedList.toFinset historyData).Pairwise
      (fun a b => fetchScore (fetchCommonTags historyData)
          (fetchCommonArtists historyData) b
        ≤ fetchScore (fetchCommonTags historyData)
          (fetchCommonArtists historyData) a) ∧
    (fetchPersonalized songsData likedList.toFinset historyData).Perm
      ((songsData.map fun s =>
          convertDatabaseSong s (decide (s.file_id ∈ likedList.toFinset))).filter
        fun s => !((historySongIdsOf historyData).contains s.id)) ∧
    (∀ s ∈ fetchPersonalized songsData likedList.toFinset historyData,
      ((historySongIdsOf historyData).contains s.id) = false) ∧
    fetchCommonTags historyData = fetchCommonTags (historyData.take 15) ∧
    fetchCommonArtists historyData = fetchCommonArtists (historyData.take 15) ∧
    (∀ s : Song, fetchScore (fetchCommonTags historyData)
        (fetchCommonArtists historyData) s
      = (((s.tags.map String.toLower).filter fun t =>
            (fetchCommonTags historyData).contains t).length : Int) * 10
        + (if s.artist ≠ "" ∧ (fetchCommonArtists historyData).contains s.artist.toLower
            then 20 else 0)
        + s.views + s.likes) := by
  refine ⟨rfl, sortByDesc_pairwise _ _, sortByDesc_perm _ _, ?_, ?_, ?_, fun s => rfl⟩
  · intro s hs
    have hmem := (sortByDesc_perm (fetchScore (fetchCommonTags historyData)
      (fetchCommonArtists historyData)) _).mem_iff.mp hs
    have := List.of_mem_filter hmem
    simpa using this
  · unfold fetchCommonTags topHistoryOf
    simp [List.take_take]
  · unfold fetchCommonArtists topHistoryOf
    simp [List.take_take]

unseal List.merge List.mergeSort in
/-- Witness for C2 amended on a concrete one-song catalog and empty
history: the exclusion clause is discharged at the single member of the
view. -/
theorem C2_personalized_deterministic_uncapped_witness :
    ((historySongIdsOf []).contains
      (convertDatabaseSong (cxSong 100) false).id) = false :=
  (C2_personalized_deterministic_uncapped emptyViews [cxSong 100] [] []
      (Except.ok none)).2.2.2.1 (convertDatabaseSong (cxSong 100) false)
    (by decide)

/-- Lookup in the history map built by getPersonalizedSongs (lines
381-384): repeated forEach insertion means the last row for a key wins,
and a missing key yields 0. -/
def historyLookup (history : List (Nat × Rat)) (fid : Nat) : Rat :=
  ((history.reverse.find? fun p => p.1 == fid).map Prod.snd).getD 0

/-- Candidate filter of seed-song personalization (getPersonalizedSongs
lines 403-420): drop the reference song, drop explicitly excluded ids
when an exclusion set was provided, and keep only songs in the language
of the reference song. -/
def seedFilter (songsData : List DatabaseSong) (currentSong : Song)
    (listenedSongs : Option (List String)) : List DatabaseSong :=
  songsData.filter fun song =>
    !(song.file_id == currentSong.file_id)
    && !((listenedSongs.getD []).contains (toString song.file_id))
    && (song.language == currentSong.language)

/-- Seed-song score (getPersonalizedSongs lines 429-469).  Math.log is
the parameter logf and the Math.random() * 3 draw is the parameter
rnd. -/
def seedScore (logf : Int → Rat) (currentSong : Song) (history : List (Nat × Rat))
    (userLiked : Finset Nat) (rnd : Rat) (song : DatabaseSong) : Rat :=
  ((song.tags.filter fun t => currentSong.tags.contains t).length : Rat) * 15
  + (if song.artist == currentSong.artist then 25 else 0)
  + (if song.language == currentSong.language then 10 else 0)
  + min (historyLookup history song.file_id * 2) 20
  + logf (1 + song.likes) * 2
  + logf (1 + song.views) * 1
  + (if song.file_id ∈ userLiked then 8 else 0)
  + rnd

/-- Surviving candidates of seed-song mode paired with their scores; the
random draw of the i-th surviving candidate is rand i. -/
def seedScoredList (logf : Int → Rat) (rand : Nat → Rat)
    (songsData : List DatabaseSong) (history : List (Nat × Rat))
    (userLiked : Finset Nat) (currentSong : Song)
    (listenedSongs : Option (List String)) : List (Song × Rat) :=
  (seedFilter songsData currentSong listenedSongs).enum.map fun p =>
    (convertDatabaseSong p.2 (decide (p.2.file_id ∈ userLiked)),
     seedScore logf currentSong history userLiked (rand p.1) p.2)

/-- getPersonalizedSongs from useSupabaseData.ts on the success path:
filter, score, stable-sort by score descending, return the first ten
songs. -/
def getPersonalizedSongs (logf : Int → Rat) (rand : Nat → Rat)
    (songsData : List DatabaseSong) (history : List (Nat × Rat))
    (userLiked : Finset Nat) (currentSong : Song)
    (listenedSongs : Option (List String)) : List Song :=
  ((sortByDesc Prod.snd (seedScoredList logf rand songsData history userLiked
      currentSong listenedSongs)).take 10).map Prod.fst

/-- Candidate filter of the history-batch scorer
(getSmartPersonalizedSongs lines 112-118): drop excluded ids and keep
only songs whose language equals that of the first batch song. -/
def smartFilter (songsData : List DatabaseSong) (batch : List Song)
    (excludeSongs : List String) : List DatabaseSong :=
  songsData.filter fun song =>
    !(excludeSongs.contains (toString song.file_id))
    && match batch.head? with
       | some b => song.language == b.language
       | none => false

/-- History-batch score (getSmartPersonalizedSongs lines 128-163), with
Math.log as logf and the Math.random() * 2 draw as rnd. -/
def smartScore (logf : Int → Rat)
    (preferredTags preferredArtists batchLanguages : List String)
    (userLiked : Finset Nat) (rnd : Rat) (song : DatabaseSong) : Rat :=
  (((song.tags.map String.toLower).filter fun t =>
      preferredTags.contains t).length : Rat) * 25
  + (if preferredArtists.contains song.artist.toLower then 30 else 0)
  + (if batchLanguages.contains song.language then 15 else 0)
  + logf (1 + song.likes) * 2
  + logf (1 + song.views) * 1
  + (if song.file_id ∈ userLiked then 10 else 0)
  + rnd

/-- getSmartPersonalizedSongs from useSupabaseData.ts on the success
path: empty batch returns nothing, otherwise filter, score, stable-sort
descending and keep the first fifteen songs. -/
def getSmartPersonalizedSongs (logf : Int → Rat) (rand : Nat → Rat)
    (songsData : List DatabaseSong) (userLiked : Finset Nat)
    (batch : List Song) (excludeSongs : List String) : List Song :=
  if batch.isEmpty then []
  else
    let preferredTags := (batch.flatMap Song.tags).map String.toLower
    let preferredArtists := batch.map fun s => s.artist.toLower
    let batchLanguages := batch.map Song.language
    let scored := (smartFilter songsData batch excludeSongs).enum.map fun p =>
      (convertDatabaseSong p.2 (decide (p.2.file_id ∈ userLiked)),
       smartScore logf preferredTags preferredArtists batchLanguages userLiked
         (rand p.1) p.2)
    ((sortByDesc Prod.snd scored).take 15).map Prod.fst

/-- Membership in the top slice of a score-sorted list comes from the
underlying scored list. -/
theorem mem_top_of_scored {α : Type} (scored : List (α × Rat)) (k : Nat) (s : α)
    (hs : s ∈ ((sortByDesc Prod.snd scored).take k).map Prod.fst) :
    ∃ pr ∈ scored, pr.1 = s := by
  obtain ⟨pr, hpr, h1⟩ := List.mem_map.mp hs
  exact ⟨pr, (sortByDesc_perm _ _).mem_iff.mp (List.mem_of_mem_take hpr), h1⟩

/-- Membership in an enumerated list projects to the underlying list. -/
theorem snd_mem_of_mem_enum {α : Type} {l : List α} {p : Nat × α} (h : p ∈ l.enum) :
    p.2 ∈ l :=
  List.getElem?_mem (List.mem_enum_iff_getElem?.mp h)

/-- C3: seed-song personalization returns the first ten surviving
candidates of the score-descending stable sort, and the score of every
surviving candidate is exactly tag-overlap x 15, plus 25 for the same
artist, plus 10 for the same language, plus the capped history boost
min(2 x minutes, 20), plus logf(1+likes) x 2 plus logf(1+views) x 1,
plus 8 when liked, plus a random draw in the interval from 0 inclusive
to 3 exclusive. -/
theorem C3_seed_mode_top10 (logf : Int → Rat) (rand : Nat → Rat)
    (songsData : List DatabaseSong) (history : List (Nat × Rat))
    (userLiked : Finset Nat) (currentSong : Song)
    (listenedSongs : Option (List String))
    (hrand : ∀ i, 0 ≤ rand i ∧ rand i < 3) :
    getPersonalizedSongs logf rand songsData history userLiked currentSong
        listenedSongs
      = ((sortByDesc Prod.snd (seedScoredList logf rand songsData history
          userLiked currentSong listenedSongs)).take 10).map Prod.fst ∧
    (sortByDesc Prod.snd (seedScoredList logf rand songsData history userLiked
        currentSong listenedSongs)).Pairwise (fun a b => b.2 ≤ a.2) ∧
    (sortByDesc Prod.snd (seedScoredList logf rand songsData history userLiked
        currentSong listenedSongs)).Perm
      (seedScoredList logf rand songsData history userLiked currentSong
        listenedSongs) ∧
    (∀ x ∈ (sortByDesc Prod.snd (seedScoredList logf rand songsData history
        userLiked currentSong listenedSongs)).take 10,
      ∀ y ∈ (sortByDesc Prod.snd (seedScoredList logf rand songsData history
        userLiked currentSong listenedSongs)).drop 10, y.2 ≤ x.2) ∧
    (∀ p ∈ (seedFilter songsData currentSong listenedSongs).enum,
      seedScore logf currentSong history userLiked (rand p.1) p.2
        = ((p.2.tags.filter fun t => currentSong.tags.contains t).length : Rat) * 15
          + (if p.2.artist == currentSong.artist then (25 : Rat) else 0)
          + (if p.2.language == currentSong.language then (10 : Rat) else 0)
          + min (historyLookup history p.2.file_id * 2) 20
          + logf (1 + p.2.likes) * 2
          + logf (1 + p.2.views) * 1
          + (if p.2.file_id ∈ userLiked then (8 : Rat) else 0)
          + rand p.1
        ∧ 0 ≤ rand p.1 ∧ rand p.1 < 3) := by
  refine ⟨rfl, sortByDesc_pairwise Prod.snd _, sortByDesc_perm Prod.snd _,
    sortByDesc_take_dominates Prod.snd _ 10, fun p _ => ⟨rfl, hrand p.1⟩⟩

/-- Concrete seed song for the C3 witness. -/
def wSeed : Song := convertDatabaseSong ⟨5, 5, "S", "X", "en", ["rock"], 7, 3⟩ false

unseal List.merge List.mergeSort in
/-- Witness for C3 with the zero log function and the constant draw 1:
the score equation is discharged at the single surviving candidate of a
concrete catalog. -/
theorem C3_seed_mode_top10_witness :
    seedScore (fun _ => 0) wSeed [(2, 4)] ∅ ((fun _ : Nat => (1 : Rat)) 0)
        ⟨2, 12, "B", "Y", "en", ["rock"], 5, 1⟩
      = (((⟨2, 12, "B", "Y", "en", ["rock"], 5, 1⟩ : DatabaseSong).tags.filter
            fun t => wSeed.tags.contains t).length : Rat) * 15
        + (if (⟨2, 12, "B", "Y", "en", ["rock"], 5, 1⟩ : DatabaseSong).artist == wSeed.artist
            then (25 : Rat) else 0)
        + (if (⟨2, 12, "B", "Y", "en", ["rock"], 5, 1⟩ : DatabaseSong).language == wSeed.language
            then (10 : Rat) else 0)
        + min (historyLookup [(2, 4)] 2 * 2) 20
        + (fun _ : Int => (0 : Rat)) (1 + 1) * 2
        + (fun _ : Int => (0 : Rat)) (1 + 5) * 1
        + (if (2 : Nat) ∈ (∅ : Finset Nat) then (8 : Rat) else 0)
        + (fun _ : Nat => (1 : Rat)) 0
      ∧ (0 : Rat) ≤ (fun _ : Nat => (1 : Rat)) 0 ∧ (fun _ : Nat => (1 : Rat)) 0 < 3 := by
  have h := (C3_seed_mode_top10 (fun _ => 0) (fun _ => 1)
    [⟨2, 12, "B", "Y", "en", ["rock"], 5, 1⟩] [(2, 4)] ∅ wSeed none
    (fun i => by constructor <;> norm_num)).2.2.2.2
    (0, ⟨2, 12, "B", "Y", "en", ["rock"], 5, 1⟩) (by decide)
  exact h

/-- English catalog song also present in history. -/
def cxDbEn : DatabaseSong := ⟨1, 1, "E", "ax", "en", ["t"], 0, 0⟩

/-- French catalog song not in history. -/
def cxDbFr : DatabaseSong := ⟨2, 2, "F", "bx", "fr", ["t"], 0, 0⟩

unseal List.merge List.mergeSort in
/-- C4 counterexample: with an English-only history batch, the refresh
personalizedFromHistory view returns the French song, so the
history-based view of the refresh applies no language hard filter. -/
theorem C4_counterexample :
    (fetchSongsUpdate emptyViews (Except.ok [cxDbEn, cxDbFr]) (Except.ok [])
        (Except.ok [⟨1, 5, some cxDbEn⟩])
        (Except.ok none)).personalizedSongs.map Song.language = ["fr"] ∧
    (topHistoryOf [⟨1, 5, some cxDbEn⟩]).filterMap
        (fun h => h.songs.map DatabaseSong.language) = ["en"] ∧
    ("fr" : String) ≠ "en" := by
  refine ⟨?_, by decide, by decide⟩
  show (fetchPersonalized [cxDbEn, cxDbFr] (List.toFinset [])
      [⟨1, 5, some cxDbEn⟩]).map Song.language = ["fr"]
  decide

/-- A song of the refresh personalized view is never in history (shared
helper for the filter facts of fetchPersonalized). -/
theorem fetchPersonalized_excludes_history (songsData : List DatabaseSong)
    (userLiked : Finset Nat) (historyData : List HistoryRow) :
    ∀ s ∈ fetchPersonalized songsData userLiked historyData,
      ((historySongIdsOf historyData).contains s.id) = false := by
  intro s hs
  have hmem := (sortByDesc_perm (fetchScore (fetchCommonTags historyData)
    (fetchCommonArtists historyData)) _).mem_iff.mp hs
  have := List.of_mem_filter hmem
  simpa using this

/-- C4 amended: the two scoring-engine modes do apply the hard filters
before scoring (same language as the reference song or as the first
batch song, reference song excluded, excluded ids excluded), but the
refresh-time personalizedFromHistory view only excludes songs already in
history and applies no language filter at all. -/
theorem C4_hard_filters_where_present (logf : Int → Rat) (rand : Nat → Rat)
    (songsData : List DatabaseSong) (history : List (Nat × Rat))
    (userLiked : Finset Nat) (currentSong : Song)
    (listenedSongs : Option (List String))
    (batch : List Song) (excludeSongs : List String)
    (songsB : List DatabaseSong) (likedB : Finset Nat)
    (historyData : List HistoryRow) :
    (∀ s ∈ getPersonalizedSongs logf rand songsData history userLiked
        currentSong listenedSongs,
      s.language = currentSong.language ∧
      s.file_id ≠ currentSong.file_id ∧
      ∀ ls, listenedSongs = some ls → (ls.contains s.id) = false) ∧
    (∀ s ∈ getSmartPersonalizedSongs logf rand songsData userLiked batch
        excludeSongs,
      (excludeSongs.contains s.id) = false ∧
      ∀ b, batch.head? = some b → s.language = b.language) ∧
    (∀ s ∈ fetchPersonalized songsB likedB historyData,
      ((historySongIdsOf historyData).contains s.id) = false) := by
  refine ⟨?_, ?_, fetchPersonalized_excludes_history songsB likedB historyData⟩
  · intro s hs
    obtain ⟨pr, hpr, hprs⟩ := mem_top_of_scored _ 10 s hs
    obtain ⟨q, hq, hqpr⟩ := List.mem_map.mp hpr
    have hqf : q.2 ∈ seedFilter songsData currentSong listenedSongs :=
      snd_mem_of_mem_enum hq
    have hcond := List.of_mem_filter hqf
    simp only [Bool.and_eq_true, Bool.not_eq_true', beq_iff_eq, beq_eq_false_iff_ne,
      ne_eq] at hcond
    obtain ⟨⟨hfid, hlist⟩, hlang⟩ := hcond
    have hsq : s = convertDatabaseSong q.2 (decide (q.2.file_id ∈ userLiked)) := by
      rw [← hprs, ← hqpr]
    subst hsq
    refine ⟨hlang, hfid, ?_⟩
    intro ls hls
    subst hls
    simpa using hlist
  · intro s hs
    rcases hb : batch with _ | ⟨b0, rest⟩
    · subst hb
      simp [getSmartPersonalizedSongs] at hs
    · subst hb
      have hs2 : s ∈ ((sortByDesc Prod.snd
          ((smartFilter songsData (b0 :: rest) excludeSongs).enum.map fun p =>
            (convertDatabaseSong p.2 (decide (p.2.file_id ∈ userLiked)),
             smartScore logf (((b0 :: rest).flatMap Song.tags).map String.toLower)
               ((b0 :: rest).map fun s => s.artist.toLower)
               ((b0 :: rest).map Song.language) userLiked
               (rand p.1) p.2))).take 15).map Prod.fst := by
        simpa [getSmartPersonalizedSongs] using hs
      obtain ⟨pr, hpr, hprs⟩ := mem_top_of_scored _ 15 s hs2
      obtain ⟨q, hq, hqpr⟩ := List.mem_map.mp hpr
      have hqf : q.2 ∈ smartFilter songsData (b0 :: rest) excludeSongs :=
        snd_mem_of_mem_enum hq
      have hcond := List.of_mem_filter hqf
      simp only [smartFilter, List.head?_cons, Bool.and_eq_true, Bool.not_eq_true',
        beq_iff_eq] at hcond
      obtain ⟨hexcl, hlang⟩ := hcond
      have hsq : s = convertDatabaseSong q.2 (decide (q.2.file_id ∈ userLiked)) := by
        rw [← hprs, ← hqpr]
      subst hsq
      refine ⟨by simpa using hexcl, ?_⟩
      intro b hbb
      simp only [List.head?_cons, Option.some.injEq] at hbb
      subst hbb
      exact hlang

unseal List.merge List.mergeSort in
/-- Witness for C4 amended: the hard-filter facts are discharged at the
concrete member returned by seed-song mode on a one-song catalog with a
provided exclusion set. -/
theorem C4_hard_filters_where_present_witness :
    (convertDatabaseSong ⟨2, 12, "B", "Y", "en", ["rock"], 5, 1⟩ false).language
      = wSeed.language ∧
    (convertDatabaseSong ⟨2, 12, "B", "Y", "en", ["rock"], 5, 1⟩ false).file_id
      ≠ wSeed.file_id ∧
    (∀ ls, (some ["9"] : Option (List String)) = some ls →
      (ls.contains (convertDatabaseSong ⟨2, 12, "B", "Y", "en", ["rock"], 5, 1⟩
        false).id) = false) :=
  (C4_hard_filters_where_present (fun _ => 0) (fun _ => 1)
      [⟨2, 12, "B", "Y", "en", ["rock"], 5, 1⟩] [] ∅ wSeed (some ["9"])
      [] [] [] ∅ []).1
    (convertDatabaseSong ⟨2, 12, "B", "Y", "en", ["rock"], 5, 1⟩ false)
    (by decide)

/-- State of the listening-session tracker: the current song ref and the
start timestamp (milliseconds). -/
structure TrackerState where
  currentSong : Option String
  startedAt : Option Rat
deriving DecidableEq, Repr

/-- Elapsed minutes between two millisecond timestamps
(recordListeningHistory line 911). -/
def elapsedMinutes (startMs endMs : Rat) : Rat :=
  (endMs - startMs) / (1000 * 60)

/-- Rounding to two decimals as Math.round(x * 100) / 100
(recordListeningHistory line 915); Math.round x equals the floor of
x + 1/2, which is the Mathlib round. -/
def round2 (q : Rat) : Rat := (round (q * 100) : Int) / 100

/-- History flush attempted by the tracker at a given time: one additive
upsert for the tracked song when a user is present, the state is
TRACKING and the unrounded elapsed time exceeds 0.1 minutes; nothing
otherwise. -/
def flushOf (uid : Option String) (st : TrackerState) (now : Rat) :
    List (String × Rat) :=
  match uid, st.currentSong, st.startedAt with
  | some _, some sid, some t0 =>
    if elapsedMinutes t0 now > 1 / 10 then [(sid, round2 (elapsedMinutes t0 now))]
    else []
  | _, _, _ => []

/-- recordListeningHistory from useSupabaseData.ts as a pure transition:
without a user id it returns early changing nothing; otherwise it
flushes the previously tracked song under the 0.1-minute guard and
starts tracking the new song at the current time.  The remote last-song
update and view increment are outside the tracker state. -/
def recordListeningHistory (uid : Option String) (now : Rat) (songId : String)
    (st : TrackerState) : TrackerState × List (String × Rat) :=
  match uid with
  | none => (st, [])
  | some _ => (⟨some songId, some now⟩, flushOf uid st now)

/-- stopCurrentSongTracking from useSupabaseData.ts as a pure
transition: flush under the same guard (only when a user id is present),
then always reset to IDLE. -/
def stopCurrentSongTracking (uid : Option String) (now : Rat)
    (st : TrackerState) : TrackerState × List (String × Rat) :=
  (⟨none, none⟩, flushOf uid st now)

/-- C6: with a user present, starting song B at time tB while TRACKING
song A started at tA flushes exactly one delta for A worth the elapsed
minutes rounded to two decimals, and only when the unrounded elapsed
time exceeds 0.1 minutes; afterwards the state is TRACKING B at tB.
Stopping within 0.1 minutes of the start flushes nothing and the state
becomes IDLE. -/
theorem C6_tracker_flush (u A B : String) (tA tB tStop : Rat) :
    (recordListeningHistory (some u) tB B ⟨some A, some tA⟩).1
      = ⟨some B, some tB⟩ ∧
    (elapsedMinutes tA tB > 1 / 10 →
      (recordListeningHistory (some u) tB B ⟨some A, some tA⟩).2
        = [(A, round2 (elapsedMinutes tA tB))]) ∧
    (¬ elapsedMinutes tA tB > 1 / 10 →
      (recordListeningHistory (some u) tB B ⟨some A, some tA⟩).2 = []) ∧
    (stopCurrentSongTracking (some u) tStop ⟨some B, some tB⟩).1
      = ⟨none, none⟩ ∧
    (elapsedMinutes tB tStop ≤ 1 / 10 →
      (stopCurrentSongTracking (some u) tStop ⟨some B, some tB⟩).2 = []) := by
  refine ⟨rfl, ?_, ?_, rfl, ?_⟩
  · intro h
    exact if_pos h
  · intro h
    exact if_neg h
  · intro h
    exact if_neg (not_lt.mpr h)

/-- Witness for C6: one minute of listening on song a flushes one delta
of exactly one minute; a three-second stop right after flushes
nothing. -/
theorem C6_tracker_flush_witness :
    (recordListeningHistory (some "u") 60000 "b" ⟨some "a", some 0⟩).1
      = ⟨some "b", some 60000⟩ ∧
    (recordListeningHistory (some "u") 60000 "b" ⟨some "a", some 0⟩).2
      = [("a", round2 (elapsedMinutes 0 60000))] ∧
    (stopCurrentSongTracking (some "u") 63000 ⟨some "b", some 60000⟩).1
      = ⟨none, none⟩ ∧
    (stopCurrentSongTracking (some "u") 63000 ⟨some "b", some 60000⟩).2 = [] := by
  obtain ⟨h1, h2, -, h4, h5⟩ := C6_tracker_flush "u" "a" "b" 0 60000 63000
  exact ⟨h1, h2 (by norm_num [elapsedMinutes]), h4,
    h5 (by norm_num [elapsedMinutes])⟩

/-- Module-level caches of useSupabaseData: the raw song catalog and the
liked song id set, both nullable refs. -/
structure CacheState where
  songsCache : Option (List DatabaseSong)
  likedSongsCache : Option (Finset Nat)
deriving DecidableEq

/-- Cache handling of loadData (lines 984-1024): when no user id is
available both caches are nulled; when a user id is available the caches
are left untouched (loadData never clears them on a user switch). -/
def loadDataCaches (uid : Option String) (c : CacheState) : CacheState :=
  match uid with
  | none => ⟨none, none⟩
  | some _ => c

/-- Cache-or-fetch step shared by getPersonalizedSongs and
getSmartPersonalizedSongs (lines 388-401): a populated cache is served
as is; only a missing cache is filled from the remote result. -/
def resolveLikedCache (cache : Option (Finset Nat)) (remote : List Nat) :
    Finset Nat × Option (Finset Nat) :=
  match cache with
  | some s => (s, some s)
  | none => (remote.toFinset, some remote.toFinset)

/-- C7 counterexample: caches populated while user u1 was active survive
a direct switch to user u2 (loadData only clears them when the user id
becomes null), and the next personalization read is served from the
surviving liked-set cache of u1. -/
theorem C7_counterexample :
    loadDataCaches (some "u2") ⟨some [cxDbEn], some {1}⟩
      = ⟨some [cxDbEn], some {1}⟩ ∧
    loadDataCaches (some "u2") ⟨some [cxDbEn], some {1}⟩ ≠ ⟨none, none⟩ ∧
    (resolveLikedCache
      (loadDataCaches (some "u2") ⟨some [cxDbEn], some {1}⟩).likedSongsCache
      [2]).1 = {1} := by
  refine ⟨rfl, by decide, rfl⟩

/-- C7 amended: both caches are invalidated exactly when the effective
user id becomes null; on a switch between two non-null user ids both
caches are left intact, and a subsequent cached read is served from
them unchanged. -/
theorem C7_invalidate_only_on_null (c : CacheState) :
    loadDataCaches none c = ⟨none, none⟩ ∧
    (∀ u : String, loadDataCaches (some u) c = c) ∧
    (∀ (s : Finset Nat) (remote : List Nat),
      (resolveLikedCache (some s) remote).1 = s) :=
  ⟨rfl, fun _ => rfl, fun _ _ => rfl⟩

/-- UI playlist record (fetchPlaylists lines 577-589): derived song
count and cover image, plus the projected song list. -/
structure Playlist where
  id : String
  name : String
  songCount : Nat
  image : String
  songs : List Song
deriving DecidableEq, Repr

/-- parseInt applied to the numeric id strings the UI passes around. -/
def parseIntNat (s : String) : Nat := (s.toNat?).getD 0

/-- Per-song update of toggleLike (lines 655-666): flip the liked flag
and shift the like counter of the matching song by one. -/
def applySongToggle (songId : String) (isCurrentlyLiked : Bool) (song : Song) :
    Song :=
  if song.id == songId then
    { song with
      isLiked := !isCurrentlyLiked
      likes := song.likes + (if isCurrentlyLiked then -1 else 1) }
  else song

/-- Local projections touched by toggleLike: the liked-id set, the song
list and the playlists. -/
structure LikeState where
  likedSongs : Finset Nat
  songs : List Song
  playlists : List Playlist
deriving DecidableEq

/-- toggleLike from useSupabaseData.ts on the success path of both
remote mutations: the direction is chosen from the liked-set membership
of the parsed id, the liked set is updated accordingly, and the song and
playlist projections are mapped through the per-song update. -/
def toggleLike (songId : String) (st : LikeState) : LikeState :=
  let songFileId := parseIntNat songId
  let isCurrentlyLiked := decide (songFileId ∈ st.likedSongs)
  { likedSongs :=
      if isCurrentlyLiked then st.likedSongs.erase songFileId
      else insert songFileId st.likedSongs
    songs := st.songs.map (applySongToggle songId isCurrentlyLiked)
    playlists := st.playlists.map fun p =>
      { p with songs := p.songs.map (applySongToggle songId isCurrentlyLiked) } }

/-- Toggling a song twice in opposite directions restores it, provided
its flag agreed with the first direction. -/
theorem applySongToggle_cancel (songId : String) (b : Bool) (s : Song)
    (hb : s.id = songId → s.isLiked = b) :
    applySongToggle songId (!b) (applySongToggle songId b s) = s := by
  obtain ⟨f1, f2, f3, f4, f5, f6, f7, f8, f9, f10, f11⟩ := s
  by_cases h : f9 = songId
  · have hflag := hb h
    simp only at hflag
    subst hflag
    subst h
    cases f11 <;> simp [applySongToggle]
  · simp [applySongToggle, h]

/-- List version of the toggle cancellation. -/
theorem map_toggle_cancel (songId : String) (b : Bool) (S : List Song)
    (hS : ∀ s ∈ S, s.id = songId → s.isLiked = b) :
    (S.map (applySongToggle songId b)).map (applySongToggle songId (!b)) = S := by
  rw [List.map_map]
  have h : ∀ s ∈ S, (applySongToggle songId (!b) ∘ applySongToggle songId b) s = s :=
    fun s hs => applySongToggle_cancel songId b s (hS s hs)
  rw [List.map_congr_left h]
  simp

/-- Playlist-projection version of the toggle cancellation. -/
theorem map_playlist_toggle_cancel (songId : String) (b : Bool) (P : List Playlist)
    (hP : ∀ p ∈ P, ∀ s ∈ p.songs, s.id = songId → s.isLiked = b) :
    ((P.map fun p => { p with songs := p.songs.map (applySongToggle songId b) }).map
      fun p => { p with songs := p.songs.map (applySongToggle songId (!b)) }) = P := by
  rw [List.map_map]
  have h : ∀ p ∈ P,
      ((fun p : Playlist =>
          { p with songs := p.songs.map (applySongToggle songId (!b)) }) ∘
        (fun p : Playlist =>
          { p with songs := p.songs.map (applySongToggle songId b) })) p = p := by
    intro p hp
    have hcomp := map_toggle_cancel songId b p.songs (hP p hp)
    cases p
    simp only at hcomp
    simp [Function.comp, hcomp]
  rw [List.map_congr_left h]
  simp

/-- C9: toggleLike is involutive on the local projections: with both
remote mutations succeeding and the liked flags of the affected song
agreeing with the liked-id set (as every state produced by fetchSongs or
a previous toggleLike does), toggling the same id twice restores the
liked-id set, every like counter and every liked flag in the song and
playlist projections. -/
theorem C9_toggleLike_involutive (songId : String) (st : LikeState)
    (hSongs : ∀ s ∈ st.songs, s.id = songId →
      s.isLiked = decide (parseIntNat songId ∈ st.likedSongs))
    (hPls : ∀ p ∈ st.playlists, ∀ s ∈ p.songs, s.id = songId →
      s.isLiked = decide (parseIntNat songId ∈ st.likedSongs)) :
    toggleLike songId (toggleLike songId st) = st := by
  obtain ⟨L, S, P⟩ := st
  simp only at hSongs hPls
  by_cases hmem : parseIntNat songId ∈ L
  · have hS2 := map_toggle_cancel songId true S (by simpa [hmem] using hSongs)
    have hP2 := map_playlist_toggle_cancel songId true P (by simpa [hmem] using hPls)
    simp only [Bool.not_true] at hS2 hP2
    simp [toggleLike, hmem, Finset.mem_erase, Finset.insert_erase, hS2, hP2]
  · have hS2 := map_toggle_cancel songId false S (by simpa [hmem] using hSongs)
    have hP2 := map_playlist_toggle_cancel songId false P (by simpa [hmem] using hPls)
    simp only [Bool.not_false] at hS2 hP2
    simp [toggleLike, hmem, Finset.mem_insert, Finset.erase_insert, hS2, hP2]

/-- Concrete liked-consistent state for the C9 witness. -/
def wLikeSong : Song := convertDatabaseSong ⟨2, 12, "B", "Y", "en", ["rock"], 5, 1⟩ false

/-- Concrete projection state: one song, one playlist holding it,
nothing liked. -/
def wLikeState : LikeState :=
  ⟨∅, [wLikeSong], [⟨"1", "pl", 1, wLikeSong.image, [wLikeSong]⟩]⟩

/-- Witness for C9: double toggle of song id 2 on the concrete state is
the identity. -/
theorem C9_toggleLike_involutive_witness :
    toggleLike "2" (toggleLike "2" wLikeState) = wLikeState :=
  C9_toggleLike_involutive "2" wLikeState (by decide) (by decide)

/-- Fixed placeholder cover used when a playlist has no songs. -/
def defaultPlaylistImage : String :=
  "https://images.pexels.com/photos/1763075/pexels-photo-1763075.jpeg?auto=compress&cs=tinysrgb&w=300"

/-- JavaScript idiom songs[0]?.image || fallback: the first song image
when present and truthy, the fallback otherwise. -/
def headImageOr (songs : List Song) (fallback : String) : String :=
  match songs.head? with
  | none => fallback
  | some s => if s.image = "" then fallback else s.image

/-- Playlist conversion of fetchPlaylists (lines 577-589). -/
def convertPlaylist (likedSet : Finset Nat) (pid : Nat) (pname : String)
    (rows : List DatabaseSong) : Playlist :=
  let playlistSongs := rows.map fun s =>
    convertDatabaseSong s (decide (s.file_id ∈ likedSet))
  { id := toString pid
    name := pname
    songCount := playlistSongs.length
    image := headImageOr playlistSongs defaultPlaylistImage
    songs := playlistSongs }

/-- createPlaylist (lines 712-721) on the success path: append a fresh
empty playlist with the remote id and the placeholder cover. -/
def createPlaylist (newId : Nat) (pname : String) (pls : List Playlist) :
    List Playlist :=
  pls ++ [{ id := toString newId, name := pname, songCount := 0,
            image := defaultPlaylistImage, songs := [] }]

/-- Per-playlist update of addSongToPlaylist (lines 811-827): append the
song only when its id is not already present, refreshing count and
cover; the cover falls back to the previous cover. -/
def addToPlaylist (playlistId : String) (song : Song) (playlist : Playlist) :
    Playlist :=
  if playlist.id == playlistId then
    if playlist.songs.any fun s => s.id == song.id then playlist
    else
      { playlist with
        songs := playlist.songs ++ [song]
        songCount := (playlist.songs ++ [song]).length
        image := headImageOr (playlist.songs ++ [song]) playlist.image }
  else playlist

/-- addSongToPlaylist on the success path. -/
def addSongToPlaylist (playlistId : String) (song : Song)
    (pls : List Playlist) : List Playlist :=
  pls.map (addToPlaylist playlistId song)

/-- Per-playlist update of removeSongFromPlaylist (lines 855-868): drop
every copy of the id, refreshing count and cover; the cover falls back
to the placeholder. -/
def removeFromPlaylist (playlistId songId : String) (playlist : Playlist) :
    Playlist :=
  if playlist.id == playlistId then
    { playlist with
      songs := playlist.songs.filter fun s => !(s.id == songId)
      songCount := (playlist.songs.filter fun s => !(s.id == songId)).length
      image := headImageOr (playlist.songs.filter fun s => !(s.id == songId))
        defaultPlaylistImage }
  else playlist

/-- removeSongFromPlaylist on the success path. -/
def removeSongFromPlaylist (playlistId songId : String)
    (pls : List Playlist) : List Playlist :=
  pls.map (removeFromPlaylist playlistId songId)

/-- renamePlaylist (lines 776-782) on the success path. -/
def renamePlaylist (playlistId newName : String) (pls : List Playlist) :
    List Playlist :=
  pls.map fun p => if p.id == playlistId then { p with name := newName } else p

/-- Playlist projection of toggleLike (lines 669-682). -/
def togglePlaylists (songId : String) (isCurrentlyLiked : Bool)
    (pls : List Playlist) : List Playlist :=
  pls.map fun p =>
    { p with songs := p.songs.map (applySongToggle songId isCurrentlyLiked) }

/-- Local playlist mutations exposed by the hook, as claimed by C10. -/
inductive PlaylistOp where
  | create (newId : Nat) (pname : String)
  | add (playlistId : String) (song : Song)
  | remove (playlistId : String) (songId : String)
  | rename (playlistId : String) (newName : String)
  | toggle (songId : String) (isCurrentlyLiked : Bool)
deriving DecidableEq, Repr

/-- Interpretation of one playlist operation on the local projection. -/
def applyPlaylistOp (op : PlaylistOp) (pls : List Playlist) : List Playlist :=
  match op with
  | PlaylistOp.create newId pname => createPlaylist newId pname pls
  | PlaylistOp.add playlistId song => addSongToPlaylist playlistId song pls
  | PlaylistOp.remove playlistId songId => removeSongFromPlaylist playlistId songId pls
  | PlaylistOp.rename playlistId newName => renamePlaylist playlistId newName pls
  | PlaylistOp.toggle songId b => togglePlaylists songId b pls

/-- Interpretation of a sequence of playlist operations. -/
def applyPlaylistOps (ops : List PlaylistOp) (pls : List Playlist) : List Playlist :=
  ops.foldl (fun s op => applyPlaylistOp op s) pls

/-- Well-formedness of an operation: songs handed to add come from the
catalog conversion, whose image URL is never the empty string. -/
def playlistOpWf : PlaylistOp → Prop
  | PlaylistOp.add _ song => song.image ≠ ""
  | _ => True

/-- Invariant claimed by C10: derived count equals the projected length,
the cover is the first song image or the placeholder, and all projected
songs carry a truthy image. -/
def playlistInv (p : Playlist) : Prop :=
  p.songCount = p.songs.length ∧
  p.image = headImageOr p.songs defaultPlaylistImage ∧
  ∀ s ∈ p.songs, s.image ≠ ""

/-- The derived image URL is never empty. -/
theorem songImageUrl_ne_empty (imgId : Nat) : songImageUrl imgId ≠ "" := by
  intro h
  have h2 := congrArg String.length h
  rw [songImageUrl] at h2
  simp [String.length_append] at h2
  have h3 : ("https://images.pexels.com/photos/").length = 33 := rfl
  omega

/-- The per-song toggle never changes the image field. -/
theorem applySongToggle_image (songId : String) (b : Bool) (s : Song) :
    (applySongToggle songId b s).image = s.image := by
  by_cases h : s.id = songId <;> simp [applySongToggle, h]

/-- addToPlaylist preserves the playlist invariant when the added song
has a truthy image. -/
theorem addToPlaylist_inv (playlistId : String) (song : Song) (p : Playlist)
    (hsong : song.image ≠ "") (hp : playlistInv p) :
    playlistInv (addToPlaylist playlistId song p) := by
  obtain ⟨hc, hi, hs⟩ := hp
  unfold addToPlaylist
  split
  · split
    · exact ⟨hc, hi, hs⟩
    · refine ⟨rfl, ?_, ?_⟩
      · show headImageOr (p.songs ++ [song]) p.image
          = headImageOr (p.songs ++ [song]) defaultPlaylistImage
        cases hcase : p.songs with
        | nil => simp [headImageOr, hsong]
        | cons s0 rest =>
          have h0 : s0.image ≠ "" := hs s0 (by simp [hcase])
          simp [headImageOr, h0]
      · intro s hsmem
        rcases List.mem_append.mp hsmem with h | h
        · exact hs s h
        · simp only [List.mem_singleton] at h
          subst h
          exact hsong
  · exact ⟨hc, hi, hs⟩

/-- removeFromPlaylist preserves the playlist invariant. -/
theorem removeFromPlaylist_inv (playlistId songId : String) (p : Playlist)
    (hp : playlistInv p) : playlistInv (removeFromPlaylist playlistId songId p) := by
  obtain ⟨hc, hi, hs⟩ := hp
  unfold removeFromPlaylist
  split
  · exact ⟨rfl, rfl, fun s hsmem => hs s (List.mem_of_mem_filter hsmem)⟩
  · exact ⟨hc, hi, hs⟩

/-- The playlist projection of a like toggle preserves the invariant. -/
theorem togglePlaylist_inv (songId : String) (b : Bool) (p : Playlist)
    (hp : playlistInv p) :
    playlistInv { p with songs := p.songs.map (applySongToggle songId b) } := by
  obtain ⟨hc, hi, hs⟩ := hp
  refine ⟨by simp [hc], ?_, ?_⟩
  · show p.image = headImageOr (p.songs.map (applySongToggle songId b))
      defaultPlaylistImage
    rw [hi]
    cases hcase : p.songs with
    | nil => simp [headImageOr]
    | cons s0 rest => simp [headImageOr, applySongToggle_image]
  · intro s hsmem
    obtain ⟨t, ht, rfl⟩ := List.mem_map.mp hsmem
    rw [applySongToggle_image]
    exact hs t ht

/-- Every operation of the hook preserves the playlist invariant. -/
theorem applyPlaylistOp_inv (op : PlaylistOp) (pls : List Playlist)
    (hwf : playlistOpWf op) (hinv : ∀ p ∈ pls, playlistInv p) :
    ∀ p ∈ applyPlaylistOp op pls, playlistInv p := by
  intro p hp
  cases op with
  | create newId pname =>
    simp only [applyPlaylistOp, createPlaylist] at hp
    rcases List.mem_append.mp hp with h | h
    · exact hinv p h
    · simp only [List.mem_singleton] at h
      subst h
      exact ⟨rfl, rfl, by simp⟩
  | add playlistId song =>
    simp only [applyPlaylistOp, addSongToPlaylist] at hp
    obtain ⟨q, hq, rfl⟩ := List.mem_map.mp hp
    exact addToPlaylist_inv playlistId song q hwf (hinv q hq)
  | remove playlistId songId =>
    simp only [applyPlaylistOp, removeSongFromPlaylist] at hp
    obtain ⟨q, hq, rfl⟩ := List.mem_map.mp hp
    exact removeFromPlaylist_inv playlistId songId q (hinv q hq)
  | rename playlistId newName =>
    simp only [applyPlaylistOp, renamePlaylist] at hp
    obtain ⟨q, hq, rfl⟩ := List.mem_map.mp hp
    obtain ⟨hc, hi, hs⟩ := hinv q hq
    split
    · exact ⟨hc, hi, hs⟩
    · exact ⟨hc, hi, hs⟩
  | toggle songId b =>
    simp only [applyPlaylistOp, togglePlaylists] at hp
    obtain ⟨q, hq, rfl⟩ := List.mem_map.mp hp
    exact togglePlaylist_inv songId b q (hinv q hq)

/-- The invariant is preserved by any operation sequence. -/
theorem applyPlaylistOps_inv (ops : List PlaylistOp) (pls : List Playlist)
    (hwf : ∀ op ∈ ops, playlistOpWf op) (hinv : ∀ p ∈ pls, playlistInv p) :
    ∀ p ∈ applyPlaylistOps ops pls, playlistInv p := by
  induction ops generalizing pls with
  | nil => simpa [applyPlaylistOps] using hinv
  | cons op rest ih =>
    intro p hp
    have h1 := applyPlaylistOp_inv op pls (hwf op (by simp)) hinv
    exact ih (applyPlaylistOp op pls)
      (fun o ho => hwf o (by simp [ho])) h1 p hp

/-- C10: starting from any projection satisfying the invariant (as the
fetchPlaylists conversion does), every sequence of createPlaylist,
addSongToPlaylist, removeSongFromPlaylist, renamePlaylist and toggleLike
operations keeps, for every playlist, songCount equal to the length of
its song list and the cover equal to its first song image (or the fixed
placeholder when empty); the fetchPlaylists conversion itself satisfies
the invariant; and addSongToPlaylist leaves a playlist unchanged when
the song id is already present, so it never inserts a second local
copy. -/
theorem C10_playlist_projection_invariants :
    (∀ (ops : List PlaylistOp) (pls : List Playlist),
      (∀ op ∈ ops, playlistOpWf op) → (∀ p ∈ pls, playlistInv p) →
      ∀ p ∈ applyPlaylistOps ops pls,
        p.songCount = p.songs.length ∧
        p.image = headImageOr p.songs defaultPlaylistImage) ∧
    (∀ (likedSet : Finset Nat) (pid : Nat) (pname : String)
        (rows : List DatabaseSong),
      playlistInv (convertPlaylist likedSet pid pname rows)) ∧
    (∀ (playlistId : String) (song : Song) (p : Playlist),
      (p.songs.any fun s => s.id == song.id) = true →
      addToPlaylist playlistId song p = p) := by
  refine ⟨?_, ?_, ?_⟩
  · intro ops pls hwf hinv p hp
    obtain ⟨hc, hi, -⟩ := applyPlaylistOps_inv ops pls hwf hinv p hp
    exact ⟨hc, hi⟩
  · intro likedSet pid pname rows
    refine ⟨rfl, rfl, ?_⟩
    intro s hsmem
    simp only [convertPlaylist] at hsmem
    obtain ⟨t, -, rfl⟩ := List.mem_map.mp hsmem
    exact songImageUrl_ne_empty t.img_id
  · intro playlistId song p hpresent
    unfold addToPlaylist
    split
    · simp [hpresent]
    · rfl

/-- Witness for C10: creating a playlist then adding one catalog song
yields a projection whose count and cover match the invariant at the
concrete result. -/
theorem C10_playlist_projection_invariants_witness :
    (⟨"1", "pl", 1, wSongA.image, [wSongA]⟩ : Playlist).songCount
      = (⟨"1", "pl", 1, wSongA.image, [wSongA]⟩ : Playlist).songs.length ∧
    (⟨"1", "pl", 1, wSongA.image, [wSongA]⟩ : Playlist).image
      = headImageOr (⟨"1", "pl", 1, wSongA.image, [wSongA]⟩ : Playlist).songs
          defaultPlaylistImage :=
  C10_playlist_projection_invariants.1
    [PlaylistOp.create 1 "pl", PlaylistOp.add "1" wSongA] []
    (by
      intro op hop
      simp only [List.mem_cons, List.mem_singleton] at hop
      rcases hop with h | h | h
      · subst h; trivial
      · subst h
        show wSongA.image ≠ ""
        exact songImageUrl_ne_empty 11
      · exact absurd h (by simp))
    (by simp)
    (⟨"1", "pl", 1, wSongA.image, [wSongA]⟩ : Playlist)
    (by decide)
